import Mathlib

/-!
Shallow embedding of `httpnpipe.go` (package httpnpipe): an HTTP
transport over named pipes.

The Go code is modelled as follows:
* `time.Duration` values are `Int` (Go `int64` nanoseconds; the code only
  compares them with `0`, so no overflow arithmetic occurs).
* The Go map `pipeMapping map[string]string` is an association list;
  the distinction between a `nil` map and an initialized map is kept as
  `Option (List (String × String))` because Go reads on a nil map
  succeed (not-found) while the register path explicitly initializes it.
* `RegisterTargetService` mutates the transport through a pointer and can
  panic; it is embedded as a function returning a `RegisterResult` that
  carries the post-call state (on panic, the state at the moment the
  panic fires, since the deferred unlock does not undo the map).
* `RoundTrip` performs I/O (registry lookup, pipe dial, deadline setting,
  request write, response read).  The outcomes of the external operations
  (`sockets.DialPipe`, `req.Write`, `http.ReadResponse`) are supplied by
  a `World` oracle, and every externally visible operation is recorded in
  an `Event` trace so that "performs no dial / no I/O" and "deadline set
  before the write" are statable.  Go errors are their message strings;
  the `(resp, err)` pair is an `Except String Response`.
* The mutex only guards the map accesses; in this sequential embedding it
  has no observable effect and is elided.
-/

namespace Httpnpipe

/-- Go: `const Scheme = "http+npipe"`. -/
def Scheme : String := "http+npipe"

/-- An HTTP response, abstract: the transport hands it through from
`http.ReadResponse` untouched, so its contents never matter. -/
structure Response where
  id : Nat
deriving DecidableEq, Repr

/-- The fields of `net/url.URL` that `RoundTrip` reads. -/
structure URL where
  scheme : String
  host : String
deriving DecidableEq, Repr

/-- The fields of `net/http.Request` that `RoundTrip` reads:
`req.URL` (a pointer, hence `Option`) and `req.Host`. -/
structure Request where
  url : Option URL
  host : String
deriving DecidableEq, Repr

/-- Go struct `Transport`:  three `time.Duration` fields and the
pipe-mapping map (`none` = Go nil map). -/
structure Transport where
  DialTimeout : Int
  RequestTimeout : Int
  ResponseHeaderTimeout : Int
  pipeMapping : Option (List (String × String))
deriving DecidableEq, Repr

/-- Read of a Go `map[string]string`: first matching key wins (keys are
unique by construction here, Go maps have unique keys). -/
def mapLookup : List (String × String) → String → Option String
  | [], _ => none
  | (k, v) :: rest, key => if k = key then some v else mapLookup rest key

/-- The read `pipeName, ok := transport.pipeMapping[req.URL.Host]`,
including Go's behaviour that a read on a nil map yields not-found. -/
def Transport.lookup (t : Transport) (key : String) : Option String :=
  match t.pipeMapping with
  | none => none
  | some m => mapLookup m key

/-- Outcome of `RegisterTargetService`: either a normal return carrying
the updated state, or a panic carrying the message and the state at the
moment of the panic. -/
inductive RegisterResult where
  | ok (state : Transport)
  | panicked (msg : String) (state : Transport)
deriving DecidableEq, Repr

/-- The map that `RegisterTargetService` operates on: the current map, or
the empty map it initializes when the field is still nil
(Go: `if transport.pipeMapping == nil` then `make(map[string]string)`). -/
def Transport.currentMap (t : Transport) : List (String × String) :=
  match t.pipeMapping with
  | none => []
  | some m => m

/-- Go: `func (transport *Transport) RegisterTargetService(serviceName
string, pipeName string)`.  Lock/unlock elided; if the map is nil it is
initialized to an empty map; a pre-existing entry panics with
`"service " + serviceName + " already registered"`; otherwise the pair is
inserted. -/
def Transport.RegisterTargetService (t : Transport) (serviceName pipeName : String) :
    RegisterResult :=
  let m := t.currentMap
  match mapLookup m serviceName with
  | some _ =>
      .panicked ("service " ++ serviceName ++ " already registered")
        { t with pipeMapping := some m }
  | none => .ok { t with pipeMapping := some (m ++ [(serviceName, pipeName)]) }

/-- Externally visible operations of one `RoundTrip` call, in the order
performed. -/
inductive Event where
  /-- the registry read `transport.pipeMapping[req.URL.Host]` -/
  | lookup (key : String)
  /-- `sockets.DialPipe(pipeName, transport.DialTimeout)` -/
  | dial (pipeName : String) (timeout : Int)
  /-- `c.SetWriteDeadline(time.Now().Add(d))` -/
  | setWriteDeadline (d : Int)
  /-- `req.Write(c)` -/
  | write
  /-- `c.SetReadDeadline(time.Now().Add(d))` -/
  | setReadDeadline (d : Int)
  /-- `http.ReadResponse(r, req)` -/
  | readResponse
deriving DecidableEq, Repr

/-- Oracle for the three fallible external operations of one call.
Errors are their Go message strings. -/
structure World where
  dialResult : Except String Unit
  writeResult : Option String
  readResult : Except String Response
deriving Repr

/-- Result of one `RoundTrip` call: the transport state after the call
(the Go method never writes to the transport, but returning it makes
non-mutation statable), the `(resp, err)` outcome, and the trace of
external operations performed. -/
structure RTOutcome where
  transport : Transport
  result : Except String Response
  events : List Event
deriving Repr

/-- Go: `func (transport *Transport) RoundTrip(req *http.Request)
(*http.Response, error)`, translated clause by clause.  The buffered
reader `bufio.NewReader(c)` allocates no observable state and is
elided. -/
def Transport.RoundTrip (t : Transport) (req : Request) (w : World) : RTOutcome :=
  match req.url with
  | none => ⟨t, .error "http+npipe: nil Request.URL", []⟩
  | some url =>
    if url.scheme ≠ Scheme then
      ⟨t, .error ("unsupported protocol scheme: " ++ url.scheme), []⟩
    else if url.host = "" then
      ⟨t, .error "http+npipe: no Host in request URL", []⟩
    else
      match t.lookup url.host with
      | none =>
          ⟨t, .error ("unknown service: " ++ req.host), [.lookup url.host]⟩
      | some pipeName =>
          let ev0 : List Event := [.lookup url.host, .dial pipeName t.DialTimeout]
          match w.dialResult with
          | .error e => ⟨t, .error e, ev0⟩
          | .ok _ =>
            let ev1 := ev0 ++
              (if t.RequestTimeout > 0 then [Event.setWriteDeadline t.RequestTimeout]
               else []) ++ [Event.write]
            match w.writeResult with
            | some e => ⟨t, .error e, ev1⟩
            | none =>
              let ev2 := ev1 ++
                (if t.ResponseHeaderTimeout > 0
                 then [Event.setReadDeadline t.ResponseHeaderTimeout]
                 else []) ++ [Event.readResponse]
              ⟨t, w.readResult, ev2⟩

/-! ### Lemmas about the map embedding -/

theorem mapLookup_append_right (m l : List (String × String)) (k : String)
    (h : mapLookup m k = none) : mapLookup (m ++ l) k = mapLookup l k := by
  induction m with
  | nil => rfl
  | cons p rest ih =>
    obtain ⟨a, b⟩ := p
    by_cases ha : a = k
    · simp [mapLookup, ha] at h
    · simp only [mapLookup, if_neg ha] at h
      simpa only [List.cons_append, mapLookup, if_neg ha] using ih h

theorem mapLookup_append_left (m l : List (String × String)) (k v : String)
    (h : mapLookup m k = some v) : mapLookup (m ++ l) k = some v := by
  induction m with
  | nil => simp [mapLookup] at h
  | cons p rest ih =>
    obtain ⟨a, b⟩ := p
    by_cases ha : a = k
    · simp only [mapLookup, if_pos ha] at h
      simp only [List.cons_append, mapLookup, if_pos ha, h]
    · simp only [mapLookup, if_neg ha] at h
      simpa only [List.cons_append, mapLookup, if_neg ha] using ih h

theorem lookup_some_elim (t : Transport) (k v : String) (h : t.lookup k = some v) :
    ∃ m, t.pipeMapping = some m ∧ mapLookup m k = some v := by
  unfold Transport.lookup at h
  cases hm : t.pipeMapping with
  | none => rw [hm] at h; exact absurd h (by simp)
  | some m => rw [hm] at h; exact ⟨m, rfl, h⟩

theorem lookup_eq_currentMap (t : Transport) (k : String) :
    t.lookup k = mapLookup t.currentMap k := by
  unfold Transport.lookup Transport.currentMap
  cases t.pipeMapping <;> rfl

theorem currentMap_update (t : Transport) (l : List (String × String)) :
    ({ t with pipeMapping := some l } : Transport).currentMap = l := rfl

theorem lookup_update (t : Transport) (l : List (String × String)) (k : String) :
    ({ t with pipeMapping := some l } : Transport).lookup k = mapLookup l k := rfl

theorem update_currentMap_eq_self (t : Transport) (m : List (String × String))
    (hm : t.pipeMapping = some m) :
    ({ t with pipeMapping := some t.currentMap } : Transport) = t := by
  cases t with
  | mk a b c pm =>
    cases hm
    rfl

/-- Evaluation of `RegisterTargetService` when the name is already
registered. -/
theorem register_dup_eq (t : Transport) (s p v : String) (h : t.lookup s = some v) :
    t.RegisterTargetService s p =
      .panicked ("service " ++ s ++ " already registered")
        { t with pipeMapping := some t.currentMap } := by
  unfold Transport.RegisterTargetService
  rw [lookup_eq_currentMap] at h
  simp only [h]

/-- Evaluation of `RegisterTargetService` when the name is fresh. -/
theorem register_fresh_eq (t : Transport) (s p : String) (h : t.lookup s = none) :
    t.RegisterTargetService s p =
      .ok { t with pipeMapping := some (t.currentMap ++ [(s, p)]) } := by
  unfold Transport.RegisterTargetService
  rw [lookup_eq_currentMap] at h
  simp only [h]

/-! ### Per-branch evaluation lemmas for `RoundTrip` -/

theorem roundTrip_unmapped (t : Transport) (req : Request) (w : World) (u : URL)
    (hu : req.url = some u) (hs : u.scheme = Scheme) (hh : u.host ≠ "")
    (hl : t.lookup u.host = none) :
    t.RoundTrip req w =
      ⟨t, .error ("unknown service: " ++ req.host), [.lookup u.host]⟩ := by
  simp [Transport.RoundTrip, hu, hs, hh, hl]

theorem roundTrip_dial_error (t : Transport) (req : Request) (w : World) (u : URL)
    (p e : String)
    (hu : req.url = some u) (hs : u.scheme = Scheme) (hh : u.host ≠ "")
    (hl : t.lookup u.host = some p) (hd : w.dialResult = .error e) :
    t.RoundTrip req w =
      ⟨t, .error e, [.lookup u.host, .dial p t.DialTimeout]⟩ := by
  simp [Transport.RoundTrip, hu, hs, hh, hl, hd]

theorem roundTrip_write_error (t : Transport) (req : Request) (w : World) (u : URL)
    (p e : String)
    (hu : req.url = some u) (hs : u.scheme = Scheme) (hh : u.host ≠ "")
    (hl : t.lookup u.host = some p) (hd : w.dialResult = .ok ())
    (hw : w.writeResult = some e) :
    t.RoundTrip req w =
      ⟨t, .error e,
        Event.lookup u.host :: Event.dial p t.DialTimeout ::
          ((if 0 < t.RequestTimeout then [Event.setWriteDeadline t.RequestTimeout]
            else []) ++ [Event.write])⟩ := by
  by_cases hrt : 0 < t.RequestTimeout <;>
    simp [Transport.RoundTrip, hu, hs, hh, hl, hd, hw, hrt]

theorem roundTrip_write_ok (t : Transport) (req : Request) (w : World) (u : URL)
    (p : String)
    (hu : req.url = some u) (hs : u.scheme = Scheme) (hh : u.host ≠ "")
    (hl : t.lookup u.host = some p) (hd : w.dialResult = .ok ())
    (hw : w.writeResult = none) :
    t.RoundTrip req w =
      ⟨t, w.readResult,
        Event.lookup u.host :: Event.dial p t.DialTimeout ::
          ((if 0 < t.RequestTimeout then [Event.setWriteDeadline t.RequestTimeout]
            else []) ++
           (Event.write ::
            ((if 0 < t.ResponseHeaderTimeout
              then [Event.setReadDeadline t.ResponseHeaderTimeout]
              else []) ++ [Event.readResponse])))⟩ := by
  by_cases hrt : 0 < t.RequestTimeout <;>
    by_cases hrh : 0 < t.ResponseHeaderTimeout <;>
      simp [Transport.RoundTrip, hu, hs, hh, hl, hd, hw, hrt, hrh]

theorem roundTrip_transport_eq (t : Transport) (req : Request) (w : World) :
    (t.RoundTrip req w).transport = t := by
  unfold Transport.RoundTrip
  cases req.url with
  | none => rfl
  | some u =>
    dsimp only
    split
    · rfl
    · split
      · rfl
      · split
        · rfl
        · cases w.dialResult with
          | error e => rfl
          | ok _ =>
            dsimp only
            cases w.writeResult with
            | none => rfl
            | some e => rfl

theorem string_append_left_cancel (s a b : String) (h : s ++ a = s ++ b) : a = b := by
  have hd : s.data ++ a.data = s.data ++ b.data := by
    simpa using congrArg String.data h
  exact String.ext (List.append_cancel_left hd)

/-- Exactly when a write deadline is set during a call that reaches the
write phase. -/
theorem setWriteDeadline_mem_iff (t : Transport) (req : Request) (w : World)
    (u : URL) (p : String)
    (hu : req.url = some u) (hs : u.scheme = Scheme) (hh : u.host ≠ "")
    (hl : t.lookup u.host = some p) (hd : w.dialResult = .ok ()) (d : Int) :
    Event.setWriteDeadline d ∈ (t.RoundTrip req w).events ↔
      0 < t.RequestTimeout ∧ d = t.RequestTimeout := by
  rcases hw : w.writeResult with _ | e
  · rw [roundTrip_write_ok t req w u p hu hs hh hl hd hw]
    by_cases hrt : 0 < t.RequestTimeout <;>
      by_cases hrh : 0 < t.ResponseHeaderTimeout <;>
        simp [hrt, hrh]
  · rw [roundTrip_write_error t req w u p e hu hs hh hl hd hw]
    by_cases hrt : 0 < t.RequestTimeout <;> simp [hrt]

/-- Exactly when a read deadline is set during a call that reaches the
write phase. -/
theorem setReadDeadline_mem_iff (t : Transport) (req : Request) (w : World)
    (u : URL) (p : String)
    (hu : req.url = some u) (hs : u.scheme = Scheme) (hh : u.host ≠ "")
    (hl : t.lookup u.host = some p) (hd : w.dialResult = .ok ()) (d : Int) :
    Event.setReadDeadline d ∈ (t.RoundTrip req w).events ↔
      w.writeResult = none ∧ 0 < t.ResponseHeaderTimeout ∧
        d = t.ResponseHeaderTimeout := by
  rcases hw : w.writeResult with _ | e
  · rw [roundTrip_write_ok t req w u p hu hs hh hl hd hw]
    by_cases hrt : 0 < t.RequestTimeout <;>
      by_cases hrh : 0 < t.ResponseHeaderTimeout <;>
        simp [hrt, hrh, hw]
  · rw [roundTrip_write_error t req w u p e hu hs hh hl hd hw]
    by_cases hrt : 0 < t.RequestTimeout <;> simp [hrt, hw]

/-- A dial happens exactly when the registry lookup of the URL host
succeeds, with the looked-up pipe name and the configured dial timeout. -/
theorem dial_mem_iff (t : Transport) (req : Request) (w : World) (u : URL)
    (hu : req.url = some u) (hs : u.scheme = Scheme) (hh : u.host ≠ "")
    (p : String) (d : Int) :
    Event.dial p d ∈ (t.RoundTrip req w).events ↔
      t.lookup u.host = some p ∧ d = t.DialTimeout := by
  cases hl : t.lookup u.host with
  | none =>
      rw [roundTrip_unmapped t req w u hu hs hh hl]
      simp
  | some pipe =>
      rcases hd : w.dialResult with e | uu
      · rw [roundTrip_dial_error t req w u pipe e hu hs hh hl hd]
        simp [eq_comm]
      · cases uu
        rcases hw : w.writeResult with _ | e
        · rw [roundTrip_write_ok t req w u pipe hu hs hh hl hd hw]
          by_cases hrt : 0 < t.RequestTimeout <;>
            by_cases hrh : 0 < t.ResponseHeaderTimeout <;>
              simp [hrt, hrh, eq_comm]
        · rw [roundTrip_write_error t req w u pipe e hu hs hh hl hd hw]
          by_cases hrt : 0 < t.RequestTimeout <;> simp [hrt, eq_comm]

/-! ### Claim theorems -/

/-- C1: `RegisterTargetService` on a name that already has an entry panics
with the contract-violation message and leaves the mapping (in fact the
whole transport state) unchanged; on a fresh name it inserts the pair and
returns normally. -/
theorem register_duplicate_panics_fresh_inserts (t : Transport) (s p : String) :
    ((∃ v, t.lookup s = some v) →
      t.RegisterTargetService s p =
        .panicked ("service " ++ s ++ " already registered") t) ∧
    (t.lookup s = none →
      ∃ t', t.RegisterTargetService s p = .ok t' ∧ t'.lookup s = some p) := by
  constructor
  · rintro ⟨v, hv⟩
    obtain ⟨m, hm, -⟩ := lookup_some_elim t s v hv
    rw [register_dup_eq t s p v hv, update_currentMap_eq_self t m hm]
  · intro hnone
    refine ⟨_, register_fresh_eq t s p hnone, ?_⟩
    rw [lookup_update]
    rw [lookup_eq_currentMap] at hnone
    rw [mapLookup_append_right _ _ s hnone]
    simp [mapLookup]

/-- C1 witness: a duplicate registration panics and a fresh one inserts,
at concrete inputs. -/
theorem register_duplicate_panics_fresh_inserts_witness :
    (Transport.RegisterTargetService ⟨0, 0, 0, some [("a", "p1")]⟩ "a" "p2" =
      .panicked ("service " ++ "a" ++ " already registered")
        ⟨0, 0, 0, some [("a", "p1")]⟩) ∧
    (∃ t', Transport.RegisterTargetService ⟨0, 0, 0, none⟩ "a" "p1" = .ok t' ∧
      t'.lookup "a" = some "p1") :=
  ⟨(register_duplicate_panics_fresh_inserts ⟨0, 0, 0, some [("a", "p1")]⟩ "a" "p2").1
      ⟨"p1", by decide⟩,
   (register_duplicate_panics_fresh_inserts ⟨0, 0, 0, none⟩ "a" "p1").2 (by decide)⟩

/-- C2: `RoundTrip` validates the request before any I/O, in order: a nil
URL fails with the missing-URL error, a wrong scheme with the
unsupported-scheme error (regardless of the host), an empty host with the
missing-host error; in each case the event trace is empty, so no registry
lookup, dial, write or read happens. -/
theorem roundTrip_validates_before_io (t : Transport) (req : Request) (w : World) :
    (req.url = none →
      t.RoundTrip req w = ⟨t, .error "http+npipe: nil Request.URL", []⟩) ∧
    (∀ u, req.url = some u → u.scheme ≠ Scheme →
      t.RoundTrip req w =
        ⟨t, .error ("unsupported protocol scheme: " ++ u.scheme), []⟩) ∧
    (∀ u, req.url = some u → u.scheme = Scheme → u.host = "" →
      t.RoundTrip req w = ⟨t, .error "http+npipe: no Host in request URL", []⟩) := by
  refine ⟨?_, ?_, ?_⟩
  · intro h
    simp [Transport.RoundTrip, h]
  · intro u hu hsc
    simp [Transport.RoundTrip, hu, hsc]
  · intro u hu hsc hho
    simp [Transport.RoundTrip, hu, hsc, hho]

/-- C2 witness: the three validation failures at concrete requests. -/
theorem roundTrip_validates_before_io_witness :
    (Transport.RoundTrip ⟨0, 0, 0, none⟩ ⟨none, "h"⟩ ⟨.ok (), none, .ok ⟨0⟩⟩ =
      ⟨⟨0, 0, 0, none⟩, .error "http+npipe: nil Request.URL", []⟩) ∧
    (Transport.RoundTrip ⟨0, 0, 0, none⟩ ⟨some ⟨"http", "x"⟩, "h"⟩
        ⟨.ok (), none, .ok ⟨0⟩⟩ =
      ⟨⟨0, 0, 0, none⟩, .error ("unsupported protocol scheme: " ++ "http"), []⟩) ∧
    (Transport.RoundTrip ⟨0, 0, 0, none⟩ ⟨some ⟨Scheme, ""⟩, "h"⟩
        ⟨.ok (), none, .ok ⟨0⟩⟩ =
      ⟨⟨0, 0, 0, none⟩, .error "http+npipe: no Host in request URL", []⟩) :=
  ⟨(roundTrip_validates_before_io _ _ _).1 rfl,
   (roundTrip_validates_before_io _ _ _).2.1 ⟨"http", "x"⟩ rfl (by decide),
   (roundTrip_validates_before_io _ _ _).2.2 ⟨Scheme, ""⟩ rfl rfl rfl⟩

/-- C6: registering two distinct fresh service names in sequence succeeds
(no panic) and afterwards each name resolves to its own pipe path. -/
theorem register_two_distinct_services (t : Transport) (s1 s2 p1 p2 : String)
    (hne : s1 ≠ s2) (h1 : t.lookup s1 = none) (h2 : t.lookup s2 = none) :
    ∃ t1 t2, t.RegisterTargetService s1 p1 = .ok t1 ∧
      t1.RegisterTargetService s2 p2 = .ok t2 ∧
      t2.lookup s1 = some p1 ∧ t2.lookup s2 = some p2 := by
  have h1c := h1
  rw [lookup_eq_currentMap] at h1c h2
  refine ⟨{ t with pipeMapping := some (t.currentMap ++ [(s1, p1)]) },
    { t with pipeMapping := some ((t.currentMap ++ [(s1, p1)]) ++ [(s2, p2)]) },
    register_fresh_eq t s1 p1 h1, ?_, ?_, ?_⟩
  · exact register_fresh_eq _ s2 p2 (by
      rw [lookup_update, mapLookup_append_right _ _ s2 h2]
      simp [mapLookup, hne])
  · rw [lookup_update]
    apply mapLookup_append_left
    rw [mapLookup_append_right _ _ s1 h1c]
    simp [mapLookup]
  · rw [lookup_update]
    rw [mapLookup_append_right]
    · simp [mapLookup]
    · rw [mapLookup_append_right _ _ s2 h2]
      simp [mapLookup, hne]

/-- C6 witness: two distinct names registered on a fresh transport. -/
theorem register_two_distinct_services_witness :
    ∃ t1 t2, Transport.RegisterTargetService ⟨0, 0, 0, none⟩ "a" "p1" = .ok t1 ∧
      t1.RegisterTargetService "b" "p2" = .ok t2 ∧
      t2.lookup "a" = some "p1" ∧ t2.lookup "b" = some "p2" :=
  register_two_distinct_services ⟨0, 0, 0, none⟩ "a" "b" "p1" "p2"
    (by decide) (by decide) (by decide)

/-- C7: the registry grows monotonically: a successful registration, a
registration that panics, and any `RoundTrip` call all preserve every
existing (service name → pipe path) entry unchanged. -/
theorem registry_monotone (t : Transport) :
    (∀ s p t', t.RegisterTargetService s p = .ok t' →
      ∀ k v, t.lookup k = some v → t'.lookup k = some v) ∧
    (∀ s p msg t', t.RegisterTargetService s p = .panicked msg t' →
      ∀ k v, t.lookup k = some v → t'.lookup k = some v) ∧
    (∀ req w, (t.RoundTrip req w).transport = t) := by
  refine ⟨?_, ?_, fun req w => roundTrip_transport_eq t req w⟩
  · intro s p t' heq k v hkv
    cases hl : t.lookup s with
    | some v0 =>
        rw [register_dup_eq t s p v0 hl] at heq
        exact absurd heq (by simp)
    | none =>
        rw [register_fresh_eq t s p hl] at heq
        injection heq with heq
        subst heq
        rw [lookup_update]
        rw [lookup_eq_currentMap] at hkv
        exact mapLookup_append_left _ _ k v hkv
  · intro s p msg t' heq k v hkv
    cases hl : t.lookup s with
    | some v0 =>
        rw [register_dup_eq t s p v0 hl] at heq
        injection heq with _ heq
        subst heq
        rw [lookup_update]
        rw [lookup_eq_currentMap] at hkv
        exact hkv
    | none =>
        rw [register_fresh_eq t s p hl] at heq
        exact absurd heq (by simp)

/-- C7 witness: preservation of an existing entry across a successful
registration, a panicking registration, and a `RoundTrip` call, at
concrete inputs. -/
theorem registry_monotone_witness :
    (Transport.lookup ⟨0, 0, 0, some [("a", "p"), ("b", "q")]⟩ "a" = some "p") ∧
    (Transport.lookup ⟨0, 0, 0, some [("a", "p")]⟩ "a" = some "p") ∧
    ((Transport.RoundTrip ⟨0, 0, 0, some [("a", "p")]⟩ ⟨some ⟨Scheme, "a"⟩, "a"⟩
        ⟨.ok (), none, .ok ⟨0⟩⟩).transport = ⟨0, 0, 0, some [("a", "p")]⟩) :=
  ⟨(registry_monotone ⟨0, 0, 0, some [("a", "p")]⟩).1 "b" "q"
      ⟨0, 0, 0, some [("a", "p"), ("b", "q")]⟩ (by decide) "a" "p" (by decide),
   (registry_monotone ⟨0, 0, 0, some [("a", "p")]⟩).2.1 "a" "x"
      ("service " ++ "a" ++ " already registered") ⟨0, 0, 0, some [("a", "p")]⟩
      (by decide) "a" "p" (by decide),
   (registry_monotone ⟨0, 0, 0, some [("a", "p")]⟩).2.2 ⟨some ⟨Scheme, "a"⟩, "a"⟩
      ⟨.ok (), none, .ok ⟨0⟩⟩⟩

/-- C10: the zero-value transport (nil map, no registration ever made) is
safe: `RoundTrip` on any valid request does not panic but returns the
unknown-service error (the nil-map read reports not-found), and the first
`RegisterTargetService` call initializes the map before inserting. -/
theorem zero_value_transport_safe (t : Transport) (ht : t.pipeMapping = none) :
    (∀ req w u, req.url = some u → u.scheme = Scheme → u.host ≠ "" →
      t.RoundTrip req w =
        ⟨t, .error ("unknown service: " ++ req.host), [.lookup u.host]⟩) ∧
    (∀ s p, ∃ t', t.RegisterTargetService s p = .ok t' ∧
      t'.pipeMapping = some [(s, p)]) := by
  constructor
  · intro req w u hu hsc hho
    apply roundTrip_unmapped t req w u hu hsc hho
    unfold Transport.lookup
    rw [ht]
  · intro s p
    have hl : t.lookup s = none := by unfold Transport.lookup; rw [ht]
    refine ⟨_, register_fresh_eq t s p hl, ?_⟩
    have hcm : t.currentMap = [] := by unfold Transport.currentMap; rw [ht]
    simp [hcm]

/-- C10 witness: the zero-value transport at a concrete request and a
concrete first registration. -/
theorem zero_value_transport_safe_witness :
    (Transport.RoundTrip ⟨0, 0, 0, none⟩ ⟨some ⟨Scheme, "svc"⟩, "svc"⟩
        ⟨.ok (), none, .ok ⟨0⟩⟩ =
      ⟨⟨0, 0, 0, none⟩, .error ("unknown service: " ++ "svc"), [.lookup "svc"]⟩) ∧
    (∃ t', Transport.RegisterTargetService ⟨0, 0, 0, none⟩ "svc" "pipe" = .ok t' ∧
      t'.pipeMapping = some [("svc", "pipe")]) :=
  ⟨(zero_value_transport_safe ⟨0, 0, 0, none⟩ rfl).1 ⟨some ⟨Scheme, "svc"⟩, "svc"⟩
      ⟨.ok (), none, .ok ⟨0⟩⟩ ⟨Scheme, "svc"⟩ rfl rfl (by decide),
   (zero_value_transport_safe ⟨0, 0, 0, none⟩ rfl).2 "svc" "pipe"⟩

/-- C3: a valid request whose URL host is not in the registry fails with
the unknown-service error and performs no dial; conversely a dial is
performed only when the registry lookup of the URL host succeeds (and
dials exactly the looked-up pipe with the configured dial timeout). -/
theorem unknown_service_no_dial (t : Transport) (req : Request) (w : World)
    (u : URL)
    (hu : req.url = some u) (hs : u.scheme = Scheme) (hh : u.host ≠ "") :
    (t.lookup u.host = none →
      (t.RoundTrip req w).result = .error ("unknown service: " ++ req.host) ∧
      ∀ p d, Event.dial p d ∉ (t.RoundTrip req w).events) ∧
    (∀ p d, Event.dial p d ∈ (t.RoundTrip req w).events →
      t.lookup u.host = some p ∧ d = t.DialTimeout) := by
  constructor
  · intro hl
    rw [roundTrip_unmapped t req w u hu hs hh hl]
    refine ⟨rfl, ?_⟩
    intro p d hmem
    simp at hmem
  · intro p d hmem
    exact (dial_mem_iff t req w u hu hs hh p d).mp hmem

/-- C3 witness: an unregistered host at concrete inputs. -/
theorem unknown_service_no_dial_witness :
    ((Transport.RoundTrip ⟨0, 0, 0, none⟩ ⟨some ⟨Scheme, "svc"⟩, "svc"⟩
        ⟨.ok (), none, .ok ⟨0⟩⟩).result = .error ("unknown service: " ++ "svc") ∧
      ∀ p d, Event.dial p d ∉
        (Transport.RoundTrip ⟨0, 0, 0, none⟩ ⟨some ⟨Scheme, "svc"⟩, "svc"⟩
          ⟨.ok (), none, .ok ⟨0⟩⟩).events) :=
  (unknown_service_no_dial ⟨0, 0, 0, none⟩ ⟨some ⟨Scheme, "svc"⟩, "svc"⟩
      ⟨.ok (), none, .ok ⟨0⟩⟩ ⟨Scheme, "svc"⟩ rfl rfl (by decide)).1 (by decide)

/-- C4: in a call that reaches the write phase, a positive
`RequestTimeout` causes the write deadline (carrying that duration) to be
set before the request write, and a zero `RequestTimeout` causes no write
deadline at all; when the write succeeds, a positive
`ResponseHeaderTimeout` causes the read deadline to be set before the
response read, and a zero `ResponseHeaderTimeout` causes no read
deadline. -/
theorem deadlines_before_write_and_read (t : Transport) (req : Request)
    (w : World) (u : URL) (p : String)
    (hu : req.url = some u) (hs : u.scheme = Scheme) (hh : u.host ≠ "")
    (hl : t.lookup u.host = some p) (hd : w.dialResult = .ok ()) :
    (∃ pre post, (t.RoundTrip req w).events = pre ++ Event.write :: post ∧
      (0 < t.RequestTimeout → Event.setWriteDeadline t.RequestTimeout ∈ pre) ∧
      (t.RequestTimeout = 0 →
        ∀ d, Event.setWriteDeadline d ∉ (t.RoundTrip req w).events)) ∧
    (w.writeResult = none →
      ∃ pre post,
        (t.RoundTrip req w).events = pre ++ Event.readResponse :: post ∧
        (0 < t.ResponseHeaderTimeout →
          Event.setReadDeadline t.ResponseHeaderTimeout ∈ pre) ∧
        (t.ResponseHeaderTimeout = 0 →
          ∀ d, Event.setReadDeadline d ∉ (t.RoundTrip req w).events)) := by
  constructor
  · rcases hw : w.writeResult with _ | e
    · rw [roundTrip_write_ok t req w u p hu hs hh hl hd hw]
      refine ⟨Event.lookup u.host :: Event.dial p t.DialTimeout ::
        (if 0 < t.RequestTimeout then [Event.setWriteDeadline t.RequestTimeout]
         else []),
        (if 0 < t.ResponseHeaderTimeout
         then [Event.setReadDeadline t.ResponseHeaderTimeout] else []) ++
          [Event.readResponse], by simp, ?_, ?_⟩
      · intro hrt
        simp [hrt]
      · intro h0 d
        rw [← roundTrip_write_ok t req w u p hu hs hh hl hd hw,
          setWriteDeadline_mem_iff t req w u p hu hs hh hl hd d]
        simp [h0]
    · rw [roundTrip_write_error t req w u p e hu hs hh hl hd hw]
      refine ⟨Event.lookup u.host :: Event.dial p t.DialTimeout ::
        (if 0 < t.RequestTimeout then [Event.setWriteDeadline t.RequestTimeout]
         else []), [], by simp, ?_, ?_⟩
      · intro hrt
        simp [hrt]
      · intro h0 d
        rw [← roundTrip_write_error t req w u p e hu hs hh hl hd hw,
          setWriteDeadline_mem_iff t req w u p hu hs hh hl hd d]
        simp [h0]
  · intro hw
    rw [roundTrip_write_ok t req w u p hu hs hh hl hd hw]
    refine ⟨Event.lookup u.host :: Event.dial p t.DialTimeout ::
      ((if 0 < t.RequestTimeout then [Event.setWriteDeadline t.RequestTimeout]
        else []) ++ Event.write ::
       (if 0 < t.ResponseHeaderTimeout
        then [Event.setReadDeadline t.ResponseHeaderTimeout] else [])), [],
      by simp, ?_, ?_⟩
    · intro hrh
      simp [hrh]
    · intro h0 d
      rw [← roundTrip_write_ok t req w u p hu hs hh hl hd hw,
        setReadDeadline_mem_iff t req w u p hu hs hh hl hd d]
      simp [h0]

/-- C4 witness: positive timeouts on a mapped service at concrete
inputs. -/
theorem deadlines_before_write_and_read_witness :
    (∃ pre post,
      (Transport.RoundTrip ⟨1, 5, 7, some [("svc", "pipe")]⟩
        ⟨some ⟨Scheme, "svc"⟩, "svc"⟩ ⟨.ok (), none, .ok ⟨0⟩⟩).events =
          pre ++ Event.write :: post ∧
      ((0 : Int) < 5 → Event.setWriteDeadline 5 ∈ pre) ∧
      ((5 : Int) = 0 → ∀ d, Event.setWriteDeadline d ∉
        (Transport.RoundTrip ⟨1, 5, 7, some [("svc", "pipe")]⟩
          ⟨some ⟨Scheme, "svc"⟩, "svc"⟩ ⟨.ok (), none, .ok ⟨0⟩⟩).events)) ∧
    ((⟨.ok (), none, .ok ⟨0⟩⟩ : World).writeResult = none →
      ∃ pre post,
        (Transport.RoundTrip ⟨1, 5, 7, some [("svc", "pipe")]⟩
          ⟨some ⟨Scheme, "svc"⟩, "svc"⟩ ⟨.ok (), none, .ok ⟨0⟩⟩).events =
            pre ++ Event.readResponse :: post ∧
        ((0 : Int) < 7 → Event.setReadDeadline 7 ∈ pre) ∧
        ((7 : Int) = 0 → ∀ d, Event.setReadDeadline d ∉
          (Transport.RoundTrip ⟨1, 5, 7, some [("svc", "pipe")]⟩
            ⟨some ⟨Scheme, "svc"⟩, "svc"⟩ ⟨.ok (), none, .ok ⟨0⟩⟩).events)) :=
  deadlines_before_write_and_read ⟨1, 5, 7, some [("svc", "pipe")]⟩
    ⟨some ⟨Scheme, "svc"⟩, "svc"⟩ ⟨.ok (), none, .ok ⟨0⟩⟩ ⟨Scheme, "svc"⟩ "pipe"
    rfl rfl (by decide) (by decide) rfl

/-- C5: a dial failure is the call's result verbatim (nil response, the
dial's own error, the trace stops right after the single dial); a write
failure likewise is returned verbatim, with exactly one dial and one
write in the trace (no retry). -/
theorem dial_write_errors_verbatim (t : Transport) (req : Request) (w : World)
    (u : URL) (p : String)
    (hu : req.url = some u) (hs : u.scheme = Scheme) (hh : u.host ≠ "")
    (hl : t.lookup u.host = some p) :
    (∀ e, w.dialResult = .error e →
      t.RoundTrip req w =
        ⟨t, .error e, [.lookup u.host, .dial p t.DialTimeout]⟩) ∧
    (∀ e, w.dialResult = .ok () → w.writeResult = some e →
      (t.RoundTrip req w).result = .error e ∧
      (t.RoundTrip req w).events.count Event.write = 1 ∧
      (t.RoundTrip req w).events.count (Event.dial p t.DialTimeout) = 1) := by
  constructor
  · intro e hd
    exact roundTrip_dial_error t req w u p e hu hs hh hl hd
  · intro e hd hw
    rw [roundTrip_write_error t req w u p e hu hs hh hl hd hw]
    refine ⟨rfl, ?_, ?_⟩ <;>
      by_cases hrt : 0 < t.RequestTimeout <;>
        simp [hrt, List.count_cons, List.count_append]

/-- C5 witness: a failing dial and a failing write at concrete inputs. -/
theorem dial_write_errors_verbatim_witness :
    (Transport.RoundTrip ⟨1, 5, 7, some [("svc", "pipe")]⟩
        ⟨some ⟨Scheme, "svc"⟩, "svc"⟩ ⟨.error "dial failed", none, .ok ⟨0⟩⟩ =
      ⟨⟨1, 5, 7, some [("svc", "pipe")]⟩, .error "dial failed",
        [.lookup "svc", .dial "pipe" 1]⟩) ∧
    ((Transport.RoundTrip ⟨1, 5, 7, some [("svc", "pipe")]⟩
        ⟨some ⟨Scheme, "svc"⟩, "svc"⟩
        ⟨.ok (), some "write failed", .ok ⟨0⟩⟩).result = .error "write failed" ∧
      (Transport.RoundTrip ⟨1, 5, 7, some [("svc", "pipe")]⟩
        ⟨some ⟨Scheme, "svc"⟩, "svc"⟩
        ⟨.ok (), some "write failed", .ok ⟨0⟩⟩).events.count Event.write = 1 ∧
      (Transport.RoundTrip ⟨1, 5, 7, some [("svc", "pipe")]⟩
        ⟨some ⟨Scheme, "svc"⟩, "svc"⟩
        ⟨.ok (), some "write failed", .ok ⟨0⟩⟩).events.count
          (Event.dial "pipe" 1) = 1) :=
  ⟨(dial_write_errors_verbatim ⟨1, 5, 7, some [("svc", "pipe")]⟩
      ⟨some ⟨Scheme, "svc"⟩, "svc"⟩ ⟨.error "dial failed", none, .ok ⟨0⟩⟩
      ⟨Scheme, "svc"⟩ "pipe" rfl rfl (by decide) (by decide)).1
      "dial failed" rfl,
   (dial_write_errors_verbatim ⟨1, 5, 7, some [("svc", "pipe")]⟩
      ⟨some ⟨Scheme, "svc"⟩, "svc"⟩ ⟨.ok (), some "write failed", .ok ⟨0⟩⟩
      ⟨Scheme, "svc"⟩ "pipe" rfl rfl (by decide) (by decide)).2
      "write failed" rfl rfl⟩

/-- C8: the unknown-service error message is built from `req.Host`, not
from the URL host that was used as the lookup key; whenever the two
differ, the message names a different service than the one looked up. -/
theorem unknown_service_error_uses_req_host (t : Transport) (req : Request)
    (w : World) (u : URL)
    (hu : req.url = some u) (hs : u.scheme = Scheme) (hh : u.host ≠ "")
    (hl : t.lookup u.host = none) :
    (t.RoundTrip req w).result = .error ("unknown service: " ++ req.host) ∧
    (t.RoundTrip req w).events = [Event.lookup u.host] ∧
    (req.host ≠ u.host →
      ("unknown service: " ++ req.host : String) ≠
        "unknown service: " ++ u.host) := by
  rw [roundTrip_unmapped t req w u hu hs hh hl]
  refine ⟨rfl, rfl, ?_⟩
  intro hne heq
  exact hne (string_append_left_cancel _ _ _ heq)

/-- C8 witness: `req.Host` empty while the URL host is the looked-up key,
at concrete inputs. -/
theorem unknown_service_error_uses_req_host_witness :
    ((Transport.RoundTrip ⟨0, 0, 0, none⟩ ⟨some ⟨Scheme, "svc"⟩, ""⟩
        ⟨.ok (), none, .ok ⟨0⟩⟩).result = .error ("unknown service: " ++ "") ∧
      (Transport.RoundTrip ⟨0, 0, 0, none⟩ ⟨some ⟨Scheme, "svc"⟩, ""⟩
        ⟨.ok (), none, .ok ⟨0⟩⟩).events = [Event.lookup "svc"] ∧
      (("" : String) ≠ "svc" →
        ("unknown service: " ++ "" : String) ≠ "unknown service: " ++ "svc")) :=
  unknown_service_error_uses_req_host ⟨0, 0, 0, none⟩
    ⟨some ⟨Scheme, "svc"⟩, ""⟩ ⟨.ok (), none, .ok ⟨0⟩⟩ ⟨Scheme, "svc"⟩
    rfl rfl (by decide) (by decide)

/-- C9: in a call that reaches the write phase, the write deadline is set
iff `RequestTimeout` is strictly positive, and (when the write succeeds)
the read deadline is set iff `ResponseHeaderTimeout` is strictly
positive; negative values behave like zero and set no deadline. -/
theorem deadline_iff_positive_timeout (t : Transport) (req : Request)
    (w : World) (u : URL) (p : String)
    (hu : req.url = some u) (hs : u.scheme = Scheme) (hh : u.host ≠ "")
    (hl : t.lookup u.host = some p) (hd : w.dialResult = .ok ()) :
    ((∃ d, Event.setWriteDeadline d ∈ (t.RoundTrip req w).events) ↔
      0 < t.RequestTimeout) ∧
    (t.RequestTimeout < 0 →
      ∀ d, Event.setWriteDeadline d ∉ (t.RoundTrip req w).events) ∧
    (w.writeResult = none →
      ((∃ d, Event.setReadDeadline d ∈ (t.RoundTrip req w).events) ↔
        0 < t.ResponseHeaderTimeout) ∧
      (t.ResponseHeaderTimeout < 0 →
        ∀ d, Event.setReadDeadline d ∉ (t.RoundTrip req w).events)) := by
  refine ⟨⟨?_, ?_⟩, ?_, ?_⟩
  · rintro ⟨d, hdm⟩
    exact ((setWriteDeadline_mem_iff t req w u p hu hs hh hl hd d).mp hdm).1
  · intro hrt
    exact ⟨t.RequestTimeout,
      (setWriteDeadline_mem_iff t req w u p hu hs hh hl hd _).mpr ⟨hrt, rfl⟩⟩
  · intro hneg d hdm
    have := ((setWriteDeadline_mem_iff t req w u p hu hs hh hl hd d).mp hdm).1
    omega
  · intro hw
    refine ⟨⟨?_, ?_⟩, ?_⟩
    · rintro ⟨d, hdm⟩
      exact ((setReadDeadline_mem_iff t req w u p hu hs hh hl hd d).mp hdm).2.1
    · intro hrh
      exact ⟨t.ResponseHeaderTimeout,
        (setReadDeadline_mem_iff t req w u p hu hs hh hl hd _).mpr
          ⟨hw, hrh, rfl⟩⟩
    · intro hneg d hdm
      have :=
        ((setReadDeadline_mem_iff t req w u p hu hs hh hl hd d).mp hdm).2.1
      omega

/-- C9 witness: negative `RequestTimeout` and positive
`ResponseHeaderTimeout` at concrete inputs. -/
theorem deadline_iff_positive_timeout_witness :
    ((∃ d, Event.setWriteDeadline d ∈
        (Transport.RoundTrip ⟨1, -5, 7, some [("svc", "pipe")]⟩
          ⟨some ⟨Scheme, "svc"⟩, "svc"⟩ ⟨.ok (), none, .ok ⟨0⟩⟩).events) ↔
      (0 : Int) < -5) ∧
    ((-5 : Int) < 0 → ∀ d, Event.setWriteDeadline d ∉
      (Transport.RoundTrip ⟨1, -5, 7, some [("svc", "pipe")]⟩
        ⟨some ⟨Scheme, "svc"⟩, "svc"⟩ ⟨.ok (), none, .ok ⟨0⟩⟩).events) ∧
    ((⟨.ok (), none, .ok ⟨0⟩⟩ : World).writeResult = none →
      ((∃ d, Event.setReadDeadline d ∈
          (Transport.RoundTrip ⟨1, -5, 7, some [("svc", "pipe")]⟩
            ⟨some ⟨Scheme, "svc"⟩, "svc"⟩ ⟨.ok (), none, .ok ⟨0⟩⟩).events) ↔
        (0 : Int) < 7) ∧
      ((7 : Int) < 0 → ∀ d, Event.setReadDeadline d ∉
        (Transport.RoundTrip ⟨1, -5, 7, some [("svc", "pipe")]⟩
          ⟨some ⟨Scheme, "svc"⟩, "svc"⟩ ⟨.ok (), none, .ok ⟨0⟩⟩).events)) :=
  deadline_iff_positive_timeout ⟨1, -5, 7, some [("svc", "pipe")]⟩
    ⟨some ⟨Scheme, "svc"⟩, "svc"⟩ ⟨.ok (), none, .ok ⟨0⟩⟩ ⟨Scheme, "svc"⟩
    "pipe" rfl rfl (by decide) (by decide) rfl

end Httpnpipe
